import Mathlib

/-!
Verification of the route-and-pricing service core against its specification.

The numeric model uses exact rationals (`ℚ`) for all arithmetic that the
source performs on JavaScript numbers, with `Math.round` modelled as
`⌊x + 1/2⌋` (round half toward +∞, JavaScript's behaviour), except the
haversine great-circle computation, which is modelled over the reals.
-/

namespace RoutePricing

/-- JavaScript `Math.round`: nearest integer, ties toward +∞. -/
def jsRound (x : ℚ) : ℤ := ⌊x + 1/2⌋

/-- `Math.round(x * 100) / 100` — round to 2 decimal places. -/
def round2 (x : ℚ) : ℚ := (jsRound (x * 100) : ℚ) / 100

/-- `Math.round(x * 10) / 10` — round to 1 decimal place. -/
def round1 (x : ℚ) : ℚ := (jsRound (x * 10) : ℚ) / 10

/-- Trip classification record returned by `classifyTrip`
(`src/src/index.ts`, utils/haversine).  The source returns the category as a
string literal union, modelled here as `String`. -/
structure TripClassification where
  isLocal : Bool
  isOutStation : Bool
  category : String
  deriving DecidableEq, Repr

/-- `classifyTrip` from `src/src/index.ts` (utils/haversine): buckets a
distance into local / short / medium / long categories. -/
def classifyTrip (distanceKm : ℚ) : TripClassification :=
  if distanceKm < 50 then
    ⟨true, false, "local"⟩
  else if distanceKm < 150 then
    ⟨false, true, "short-outstation"⟩
  else if distanceKm < 400 then
    ⟨false, true, "medium-outstation"⟩
  else
    ⟨false, true, "long-outstation"⟩

/-- `calculatePrice` from `src/src/index.ts` (utils/haversine): tiered
base fare and per-km rate by distance, plus a time charge of 2 currency
units per minute, rounded to 2 decimals. -/
def calculatePrice (distanceKm hoursEstimate : ℚ) : ℚ :=
  let pricePerKm : ℚ :=
    if distanceKm < 50 then 12
    else if distanceKm < 150 then 15
    else if distanceKm < 400 then 12
    else 10
  let baseFare : ℚ :=
    if distanceKm < 50 then 50
    else if distanceKm < 150 then 80
    else if distanceKm < 400 then 100
    else 120
  let timeCharge : ℚ := (jsRound (hoursEstimate * 60 * 2) : ℚ)
  round2 (baseFare + distanceKm * pricePerKm + timeCharge)

/-- `estimateTravelTime` from `src/src/index.ts` (utils/haversine):
piecewise average speed 30/45/50/55 km/h by distance tier. -/
def estimateTravelTime (distanceKm : ℚ) : ℚ :=
  let avgSpeed : ℚ :=
    if distanceKm < 50 then 30
    else if distanceKm < 150 then 45
    else if distanceKm < 400 then 50
    else 55
  round2 (distanceKm / avgSpeed)

/-! ## Location records and the ranked search (`src/src/endpoints/pincodes/searchPincodes.ts`)

A row of the `pincodes` table.  `city`, `district`, `state_name`,
`latitude`, `longitude` are nullable columns, modelled with `Option`. -/

structure PincodeRow where
  pincode : String
  city : Option String
  district : Option String
  stateName : Option String
  latitude : Option ℚ
  longitude : Option ℚ
  deriving DecidableEq, Repr

/-- ASCII lower-casing, character by character (SQL `LOWER` /
JavaScript `toLowerCase` on the names in play). -/
def lowerStr (s : String) : String := ⟨s.data.map Char.toLower⟩

/-- SQL `LOWER(col) = pattern` on a nullable text column (NULL never matches). -/
def colEq (col : Option String) (pattern : String) : Bool :=
  match col with
  | none => false
  | some s => lowerStr s = pattern

/-- SQL `LOWER(col) LIKE 'pattern%'` on a nullable text column. -/
def colStarts (col : Option String) (pattern : String) : Bool :=
  match col with
  | none => false
  | some s => pattern.data.isPrefixOf (lowerStr s).data

/-- Containment of one character list in another (SQL `LIKE '%pattern%'`). -/
def charsContain (pattern : List Char) : List Char → Bool
  | [] => pattern.isEmpty
  | c :: rest => pattern.isPrefixOf (c :: rest) || charsContain pattern rest

/-- SQL `LOWER(col) LIKE '%pattern%'` on a nullable text column. -/
def colContains (col : Option String) (pattern : String) : Bool :=
  match col with
  | none => false
  | some s => charsContain pattern.data (lowerStr s).data

/-- The `CASE` relevance expression of the textual search query:
1 city exact, 2 district exact, 3 city begins-with, 4 district
begins-with, 5 anything else. `pattern` is the lower-cased query. -/
def relevance (pattern : String) (row : PincodeRow) : ℕ :=
  if colEq row.city pattern then 1
  else if colEq row.district pattern then 2
  else if colStarts row.city pattern then 3
  else if colStarts row.district pattern then 4
  else 5

/-- The `WHERE LOWER(city) LIKE '%p%' OR LOWER(district) LIKE '%p%'` filter. -/
def matchesText (pattern : String) (row : PincodeRow) : Bool :=
  colContains row.city pattern || colContains row.district pattern

/-- The `ORDER BY relevance ASC, pincode ASC` comparison. -/
def searchLE (pattern : String) (a b : PincodeRow) : Prop :=
  relevance pattern a < relevance pattern b ∨
    (relevance pattern a = relevance pattern b ∧ a.pincode ≤ b.pincode)

instance (pattern : String) : DecidableRel (searchLE pattern) := fun a b => by
  unfold searchLE
  infer_instance

instance (pattern : String) : IsTotal PincodeRow (searchLE pattern) where
  total a b := by
    unfold searchLE
    rcases lt_trichotomy (relevance pattern a) (relevance pattern b) with h | h | h
    · exact Or.inl (Or.inl h)
    · rcases le_total a.pincode b.pincode with h2 | h2
      · exact Or.inl (Or.inr ⟨h, h2⟩)
      · exact Or.inr (Or.inr ⟨h.symm, h2⟩)
    · exact Or.inr (Or.inl h)

instance (pattern : String) : IsTrans PincodeRow (searchLE pattern) where
  trans a b c hab hbc := by
    unfold searchLE at *
    rcases hab with h1 | ⟨h1, h1'⟩ <;> rcases hbc with h2 | ⟨h2, h2'⟩
    · exact Or.inl (h1.trans h2)
    · exact Or.inl (h2 ▸ h1)
    · exact Or.inl (h1 ▸ h2)
    · exact Or.inr ⟨h1.trans h2, le_trans h1' h2'⟩

/-- The textual (non-numeric) branch of the ranked location search: filter
by substring on city/district, order by relevance then pincode, `LIMIT 10`.
The SQL result order is modelled by sorting with the `ORDER BY` relation. -/
def textualSearch (searchQuery : String) (db : List PincodeRow) : List PincodeRow :=
  let searchPattern := lowerStr searchQuery
  (((db.filter (matchesText searchPattern)).insertionSort
      (searchLE searchPattern)).take 10)

/-! ## Route augmentation pipeline (`searchPincodes.ts`, lines 145–188)

The source computes the straight-line distance with an inline haversine
over floats; the deterministic pipeline that follows is a function of that
straight-line distance, embedded here over `ℚ`. -/

structure RouteEstimation where
  distance : ℚ
  hours : ℚ
  category : String
  approxPrice : ℚ
  deriving DecidableEq, Repr

/-- The per-result route estimation of the ranked-search augmentation, as
a function of the straight-line (great-circle) distance: road factor,
speed pick, inline category thresholds, and the simplified 2-tier price. -/
def routeEstimationOf (straightLineDistance : ℚ) : RouteEstimation :=
  let roadFactor : ℚ :=
    if straightLineDistance > 150 then 1.3
    else if straightLineDistance > 50 then 1.35
    else 1.4
  let distance := round2 (straightLineDistance * roadFactor)
  let avgSpeed : ℚ := if distance ≤ 50 then 40 else 50
  let hours := round2 (distance / avgSpeed)
  let category :=
    if distance > 300 then "long-outstation"
    else if distance > 150 then "medium-outstation"
    else if distance > 50 then "short-outstation"
    else "local"
  let baseRate : ℚ := if distance ≤ 50 then 500 else 800
  let perKm : ℚ := if distance ≤ 50 then 15 else 12
  let approxPrice := (jsRound (baseRate + distance * perKm) : ℚ)
  ⟨distance, hours, category, approxPrice⟩

/-- JavaScript truthiness of a nullable numeric column: `null` and `0`
are falsy. -/
def truthyCol (col : Option ℚ) : Bool :=
  match col with
  | none => false
  | some v => v != 0

/-- One formatted entry of the search response (`searchPincodes.ts`,
lines 132–142); route estimation is attached only when the origin
coordinates resolved and the row's own coordinates are truthy.  The
straight-line distance the inline haversine would produce is passed in
as `sld`. -/
structure FormattedResult where
  display : String
  pincode : String
  city : Option String
  district : String
  state : String
  latitude : Option ℚ
  longitude : Option ℚ
  routeEstimation : Option RouteEstimation
  deriving DecidableEq, Repr

/-- `row.city || row.district || 'Unknown'` (empty strings are falsy in JS). -/
def displayNameOf (row : PincodeRow) : String :=
  match row.city with
  | some c => if c = "" then (match row.district with
      | some d => if d = "" then "Unknown" else d
      | none => "Unknown") else c
  | none => match row.district with
    | some d => if d = "" then "Unknown" else d
    | none => "Unknown"

/-- The `results.map` body of the ranked search (`searchPincodes.ts`,
lines 132–191). -/
def formatRow (fromCoords : Option (ℚ × ℚ)) (row : PincodeRow) (sld : ℚ) :
    FormattedResult :=
  let displayName := displayNameOf row
  let latitude := if truthyCol row.latitude then some (row.latitude.getD 0) else none
  let longitude := if truthyCol row.longitude then some (row.longitude.getD 0) else none
  { display := row.pincode ++ " - " ++ displayName
    pincode := row.pincode
    city := match row.city with
      | some c => if c = "" then none else some c
      | none => none
    district := (row.district.getD "")
    state := (row.stateName.getD "")
    latitude := latitude
    longitude := longitude
    routeEstimation :=
      if fromCoords.isSome && truthyCol latitude && truthyCol longitude then
        some (routeEstimationOf sld)
      else none }

/-! ## Code-based route estimate (`estimateRouteByPincode`, appended to
`src/src/endpoints/pricing/router.ts`) -/

inductive PinRouteOutcome where
  | notFoundFrom (code : ℕ)
  | notFoundTo (code : ℕ)
  | noCoordsFrom (code : ℕ)
  | noCoordsTo (code : ℕ)
  | ok (fromLat fromLon toLat toLon : ℚ)
  deriving DecidableEq, Repr

/-- The lookup/validation stage of `EstimateRouteByPincode.handle`
(lines 117–177): not-found checks on each row, then the JS-truthiness
check on each coordinate pair, which rejects `null` and `0` alike with
the `has no coordinates in database` errors 4043/4044. -/
def resolvePincodeRoute (fromQuery toQuery : Option PincodeRow) : PinRouteOutcome :=
  match fromQuery with
  | none => .notFoundFrom 4041
  | some fromRow =>
    match toQuery with
    | none => .notFoundTo 4042
    | some toRow =>
      if !truthyCol fromRow.latitude || !truthyCol fromRow.longitude then
        .noCoordsFrom 4043
      else if !truthyCol toRow.latitude || !truthyCol toRow.longitude then
        .noCoordsTo 4044
      else
        .ok (fromRow.latitude.getD 0) (fromRow.longitude.getD 0)
          (toRow.latitude.getD 0) (toRow.longitude.getD 0)

/-! ## AI-assisted estimate (`src/src/endpoints/pricing/estimateRouteDetails.ts`)

JavaScript values appearing as fields of the parsed model output.  `nan`
models `NaN`; a missing field reads as `undefined`. -/

inductive JSVal where
  | num (q : ℚ)
  | nan
  | str (s : String)
  | boolVal (b : Bool)
  | nullVal
  | undefined
  deriving DecidableEq, Repr

/-- Decimal number parsing shared by the `Number` and `parseFloat` models:
optional sign, then digits with an optional decimal point (the plain
decimal-literal forms; exponents/hex are outside the inputs in play).
Returns the value and the unconsumed characters, or `none` when no digits
are present. -/
def parseDec (cs : List Char) : Option (ℚ × List Char) :=
  let (sign, cs1) : ℚ × List Char :=
    match cs with
    | '-' :: r => (-1, r)
    | '+' :: r => (1, r)
    | _ => (1, cs)
  let intDigits := cs1.takeWhile Char.isDigit
  let rest1 := cs1.dropWhile Char.isDigit
  let intVal : ℚ := (intDigits.foldl (fun acc c => acc * 10 + (c.toNat - 48)) 0 : ℕ)
  match rest1 with
  | '.' :: r2 =>
    let fracDigits := r2.takeWhile Char.isDigit
    let rest2 := r2.dropWhile Char.isDigit
    if intDigits.isEmpty && fracDigits.isEmpty then none
    else
      let fracVal : ℚ :=
        ((fracDigits.foldl (fun acc c => acc * 10 + (c.toNat - 48)) 0 : ℕ) : ℚ) /
          (10 ^ fracDigits.length : ℕ)
      some (sign * (intVal + fracVal), rest2)
  | _ =>
    if intDigits.isEmpty then none else some (sign * intVal, rest1)

/-- JavaScript `parseFloat`: longest numeric prefix after leading
whitespace; `none` models `NaN`. -/
def jsParseFloat (s : String) : Option ℚ :=
  match parseDec (s.data.dropWhile Char.isWhitespace) with
  | some (q, _) => some q
  | none => none

/-- Strip leading and trailing whitespace from a character list. -/
def trimChars (cs : List Char) : List Char :=
  ((cs.dropWhile Char.isWhitespace).reverse.dropWhile Char.isWhitespace).reverse

/-- JavaScript `Number(string)`: trimmed empty string is `0`, otherwise the
whole trimmed string must be a numeric literal; `none` models `NaN`. -/
def jsStringToNumber (s : String) : Option ℚ :=
  let t := trimChars s.data
  if t.isEmpty then some 0
  else
    match parseDec t with
    | some (q, []) => some q
    | _ => none

/-- JavaScript `Number(v)`; `none` models `NaN`. -/
def jsToNumber : JSVal → Option ℚ
  | .num q => some q
  | .nan => none
  | .str s => jsStringToNumber s
  | .boolVal b => some (if b then 1 else 0)
  | .nullVal => some 0
  | .undefined => none

/-- JavaScript truthiness (`Boolean(v)`). -/
def jsTruthy : JSVal → Bool
  | .num q => q != 0
  | .nan => false
  | .str s => s != ""
  | .boolVal b => b
  | .nullVal => false
  | .undefined => false

/-- `typeof v === 'string'`. -/
def isStringVal : JSVal → Bool
  | .str _ => true
  | _ => false

/-- The parsed AI output object; each field is whatever JS value the JSON
(or the fallback object) carried, `undefined` when absent. -/
structure AiRaw where
  distance : JSVal
  hours : JSVal
  isLocal : JSVal
  isOutStation : JSVal
  approxPrice : JSVal
  deriving DecidableEq, Repr

/-- The sanitised result object built at lines 168–179; `approxPrice`
is `Option ℚ` because the `parseFloat` branch can leave `NaN` (`none`). -/
structure RouteResult where
  fromPin : String
  toPin : String
  distance : ℚ
  hours : ℚ
  isLocal : Bool
  isOutStation : Bool
  approxPrice : Option ℚ
  deriving DecidableEq, Repr

/-- `Number(v) || 0`: `NaN` falls back to `0`; a zero result is `0` either way. -/
def numOrZero (v : JSVal) : ℚ :=
  match jsToNumber v with
  | none => 0
  | some q => q

/-- The `approxPrice` coercion: `typeof v === 'string' ? parseFloat(v)
: Number(v) || 0`.  Note the string branch has no `|| 0`. -/
def coerceApproxPrice (v : JSVal) : Option ℚ :=
  match v with
  | .str s => jsParseFloat s
  | v => some (numOrZero v)

/-- Lines 168–179: validate and sanitise the AI (or fallback) result. -/
def coerceResult (fromPin toPin : String) (raw : AiRaw) : RouteResult :=
  { fromPin := fromPin
    toPin := toPin
    distance := numOrZero raw.distance
    hours := numOrZero raw.hours
    isLocal := jsTruthy raw.isLocal
    isOutStation := jsTruthy raw.isOutStation
    approxPrice := coerceApproxPrice raw.approxPrice }

/-- `q < 0` on a possibly-`NaN` number: every comparison with `NaN` is false. -/
def ltZero : Option ℚ → Bool
  | none => false
  | some q => decide (q < 0)

/-- Lines 181–184: `result.distance < 0 || result.hours < 0 ||
result.approxPrice < 0`. -/
def sanityFails (r : RouteResult) : Bool :=
  decide (r.distance < 0) || decide (r.hours < 0) || ltZero r.approxPrice

/-- `parseInt(pin.substring(0, 3))` for the 6-digit all-digit pins the
endpoint's request schema admits: the numeric value of the first three
characters. -/
def pinRegion (pin : String) : ℤ :=
  (((pin.data.take 3).foldl (fun acc c => acc * 10 + (c.toNat - 48)) 0 : ℕ) : ℤ)

/-- The internal numbers of the heuristic fallback before they are packed
into the returned object. -/
structure FallbackResult where
  distance : ℚ
  hours : ℚ
  isLocal : Bool
  isOutStation : Bool
  approxPrice : ℚ
  deriving DecidableEq, Repr

/-- `EstimateRouteDetails.calculateFallbackPricing` (lines 209–268); the
single `Math.random()` draw of the selected band is the `rand` argument. -/
def calculateFallbackPricing (fromPin toPin : String) (rand : ℚ) : FallbackResult :=
  let fromRegion := pinRegion fromPin
  let toRegion := pinRegion toPin
  let regionDiff := |fromRegion - toRegion|
  let selected : ℚ × ℚ × Bool × Bool :=
    if regionDiff = 0 then
      let d := 15 + rand * 35
      (d, d / 30, true, false)
    else if regionDiff ≤ 5 then
      let d := 80 + rand * 120
      (d, d / 45, false, true)
    else if regionDiff ≤ 20 then
      let d := 200 + rand * 300
      (d, d / 50, false, true)
    else
      let d := 500 + rand * 500
      (d, d / 55, false, true)
  let distance := selected.1
  let hours := selected.2.1
  let pricePerKm : ℚ :=
    if distance < 50 then 12
    else if distance < 150 then 15
    else if distance < 400 then 12
    else 10
  let baseFare : ℚ := 80
  let approxPrice := (jsRound (baseFare + distance * pricePerKm) : ℚ)
  { distance := round1 distance
    hours := round2 hours
    isLocal := selected.2.2.1
    isOutStation := selected.2.2.2
    approxPrice := approxPrice }

/-- The distance the fallback draws (before the 1-decimal rounding of the
returned object), spelled out for the pricing statement. -/
def drawnDistance (fromPin toPin : String) (rand : ℚ) : ℚ :=
  let regionDiff := |pinRegion fromPin - pinRegion toPin|
  if regionDiff = 0 then 15 + rand * 35
  else if regionDiff ≤ 5 then 80 + rand * 120
  else if regionDiff ≤ 20 then 200 + rand * 300
  else 500 + rand * 500

/-- The fallback's returned object, as it reaches the common
validate-and-sanitise stage. -/
def fallbackRaw (f : FallbackResult) : AiRaw :=
  { distance := .num f.distance
    hours := .num f.hours
    isLocal := .boolVal f.isLocal
    isOutStation := .boolVal f.isOutStation
    approxPrice := .num f.approxPrice }

/-- How the model-inference step ended: the transport either failed (the
`await c.env.AI.run` call threw) or yielded text whose cleaned form either
failed `JSON.parse` (`responded none`) or parsed to an object. -/
inductive AIOutcome where
  | transportFailure
  | responded (parsed : Option AiRaw)
  deriving DecidableEq, Repr

/-- The endpoint's observable outcome: a success body or an error response
(HTTP status, error code). -/
inductive Outcome where
  | success (r : RouteResult)
  | errorResponse (status code : ℕ)
  deriving DecidableEq, Repr

/-- `EstimateRouteDetails.handle` (lines 58–203), as a function of the
AI outcome and the fallback's random draw.  A transport failure of the
model call is caught only by the outer `try` and becomes the 500/5001
error; only a `JSON.parse` failure reaches the fallback; a sanity-check
failure throws into the same outer catch. -/
def handleEstimate (fromPin toPin : String) (ai : AIOutcome) (rand : ℚ) : Outcome :=
  match ai with
  | .transportFailure => .errorResponse 500 5001
  | .responded parsed =>
    let aiResult : AiRaw :=
      match parsed with
      | none => fallbackRaw (calculateFallbackPricing fromPin toPin rand)
      | some raw => raw
    let result := coerceResult fromPin toPin aiResult
    if sanityFails result then .errorResponse 500 5001
    else .success result

/-- A 6-digit all-numeric pincode, as enforced by the request schema. -/
def validPin (s : String) : Prop := s.length = 6 ∧ s.data.all Char.isDigit

instance (s : String) : Decidable (validPin s) := by
  unfold validPin
  infer_instance

/-! ## Haversine distance (`src/src/index.ts`, utils/haversine), over ℝ -/

noncomputable section

/-- `toRad` from the haversine utility. -/
def toRad (value : ℝ) : ℝ := value * Real.pi / 180

/-- JavaScript `Math.atan2`. -/
def atan2 (y x : ℝ) : ℝ :=
  if 0 < x then Real.arctan (y / x)
  else if x < 0 ∧ 0 ≤ y then Real.arctan (y / x) + Real.pi
  else if x < 0 ∧ y < 0 then Real.arctan (y / x) - Real.pi
  else if x = 0 ∧ 0 < y then Real.pi / 2
  else if x = 0 ∧ y < 0 then -(Real.pi / 2)
  else 0

/-- `Math.round(x * 100) / 100` over the reals. -/
def round2R (x : ℝ) : ℝ := (⌊x * 100 + 1/2⌋ : ℝ) / 100

/-- `haversineKm` from `src/src/index.ts` (utils/haversine). -/
def haversineKm (lat1 lon1 lat2 lon2 : ℝ) : ℝ :=
  let R : ℝ := 6371
  let dLat := toRad (lat2 - lat1)
  let dLon := toRad (lon2 - lon1)
  let a := Real.sin (dLat / 2) ^ 2 +
    Real.cos (toRad lat1) * Real.cos (toRad lat2) * Real.sin (dLon / 2) ^ 2
  let c := 2 * atan2 (Real.sqrt a) (Real.sqrt (1 - a))
  let distance := R * c
  round2R distance

end

theorem jsRound_nonneg {x : ℚ} (hx : 0 ≤ x) : 0 ≤ jsRound x := by
  unfold jsRound
  have : (0:ℚ) ≤ x + 1/2 := by linarith
  exact Int.le_floor.mpr (by exact_mod_cast this)

theorem round2_nonneg {x : ℚ} (hx : 0 ≤ x) : 0 ≤ round2 x := by
  unfold round2
  have h : (0:ℤ) ≤ jsRound (x * 100) := jsRound_nonneg (by linarith)
  have : (0:ℚ) ≤ (jsRound (x * 100) : ℚ) := by exact_mod_cast h
  linarith

theorem round1_nonneg {x : ℚ} (hx : 0 ≤ x) : 0 ≤ round1 x := by
  unfold round1
  have h : (0:ℤ) ≤ jsRound (x * 10) := jsRound_nonneg (by linarith)
  have : (0:ℚ) ≤ (jsRound (x * 10) : ℚ) := by exact_mod_cast h
  linarith

/-- C5: for every non-negative distance exactly one trip category applies
(the four categories partition `[0, ∞)` with lower-inclusive,
upper-exclusive bounds); the boundary values 49.99/50/149.99/150/399.99/400
fall on the documented side; `isLocal` holds exactly for the local
category and `isOutStation` is its negation. -/
theorem classifyTrip_partition (d : ℚ) (hd : 0 ≤ d) :
    (((classifyTrip d).category = "local" ↔ d < 50) ∧
     ((classifyTrip d).category = "short-outstation" ↔ 50 ≤ d ∧ d < 150) ∧
     ((classifyTrip d).category = "medium-outstation" ↔ 150 ≤ d ∧ d < 400) ∧
     ((classifyTrip d).category = "long-outstation" ↔ 400 ≤ d)) ∧
    (((classifyTrip d).isLocal = true) ↔ (classifyTrip d).category = "local") ∧
    ((classifyTrip d).isOutStation = !(classifyTrip d).isLocal) ∧
    ((classifyTrip (49.99 : ℚ)).category = "local" ∧
     (classifyTrip (50 : ℚ)).category = "short-outstation" ∧
     (classifyTrip (149.99 : ℚ)).category = "short-outstation" ∧
     (classifyTrip (150 : ℚ)).category = "medium-outstation" ∧
     (classifyTrip (399.99 : ℚ)).category = "medium-outstation" ∧
     (classifyTrip (400 : ℚ)).category = "long-outstation") := by
  refine ⟨⟨?_, ?_, ?_, ?_⟩, ?_, ?_, ?_⟩
  · unfold classifyTrip
    split_ifs with h1 h2 h3 <;> simp_all <;> linarith
  · unfold classifyTrip
    split_ifs with h1 h2 h3 <;> simp_all <;> first | linarith | (intro h; linarith)
  · unfold classifyTrip
    split_ifs with h1 h2 h3 <;> simp_all <;> first | linarith | (intro h; linarith)
  · unfold classifyTrip
    split_ifs with h1 h2 h3 <;> simp_all <;> linarith
  · unfold classifyTrip
    split_ifs <;> simp
  · unfold classifyTrip
    split_ifs <;> simp
  · refine ⟨?_, ?_, ?_, ?_, ?_, ?_⟩ <;> norm_num [classifyTrip]

/-- Witness for `classifyTrip_partition` at `d = 3`. -/
theorem classifyTrip_partition_witness :
    (0 : ℚ) ≤ 3 ∧
    ((((classifyTrip 3).category = "local" ↔ (3:ℚ) < 50) ∧
      ((classifyTrip 3).category = "short-outstation" ↔ 50 ≤ (3:ℚ) ∧ (3:ℚ) < 150) ∧
      ((classifyTrip 3).category = "medium-outstation" ↔ 150 ≤ (3:ℚ) ∧ (3:ℚ) < 400) ∧
      ((classifyTrip 3).category = "long-outstation" ↔ 400 ≤ (3:ℚ))) ∧
     (((classifyTrip 3).isLocal = true) ↔ (classifyTrip 3).category = "local") ∧
     ((classifyTrip 3).isOutStation = !(classifyTrip 3).isLocal) ∧
     ((classifyTrip (49.99 : ℚ)).category = "local" ∧
      (classifyTrip (50 : ℚ)).category = "short-outstation" ∧
      (classifyTrip (149.99 : ℚ)).category = "short-outstation" ∧
      (classifyTrip (150 : ℚ)).category = "medium-outstation" ∧
      (classifyTrip (399.99 : ℚ)).category = "medium-outstation" ∧
      (classifyTrip (400 : ℚ)).category = "long-outstation")) :=
  ⟨by norm_num, classifyTrip_partition 3 (by norm_num)⟩

/-- C6: for all non-negative distance and hours, `calculatePrice` is
non-negative and equals the tiered base fare plus distance times the
tiered per-km rate plus the rounded time surcharge, rounded to 2
decimals; at distance 0 and hours 0 it equals 50. -/
theorem calculatePrice_spec (d h : ℚ) (hd : 0 ≤ d) (hh : 0 ≤ h) :
    0 ≤ calculatePrice d h ∧
    calculatePrice d h = round2
      ((if d < 50 then (50:ℚ) else if d < 150 then 80 else if d < 400 then 100 else 120) +
       d * (if d < 50 then (12:ℚ) else if d < 150 then 15 else if d < 400 then 12 else 10) +
       (jsRound (h * 60 * 2) : ℚ)) ∧
    calculatePrice 0 0 = 50 := by
  have hj : (0:ℚ) ≤ (jsRound (h * 60 * 2) : ℚ) := by
    exact_mod_cast jsRound_nonneg (by linarith)
  refine ⟨?_, ?_, ?_⟩
  · unfold calculatePrice
    apply round2_nonneg
    split_ifs <;> nlinarith [hj, hd]
  · unfold calculatePrice
    split_ifs <;> rfl
  · norm_num [calculatePrice, round2, jsRound]

/-- Witness for `calculatePrice_spec` at `d = 3`, `h = 1`. -/
theorem calculatePrice_spec_witness :
    (0 : ℚ) ≤ 3 ∧ (0 : ℚ) ≤ 1 ∧
    (0 ≤ calculatePrice 3 1 ∧
     calculatePrice 3 1 = round2
      ((if (3:ℚ) < 50 then (50:ℚ) else if (3:ℚ) < 150 then 80 else if (3:ℚ) < 400 then 100 else 120) +
       3 * (if (3:ℚ) < 50 then (12:ℚ) else if (3:ℚ) < 150 then 15 else if (3:ℚ) < 400 then 12 else 10) +
       (jsRound ((1:ℚ) * 60 * 2) : ℚ)) ∧
     calculatePrice 0 0 = 50) :=
  ⟨by norm_num, by norm_num, calculatePrice_spec 3 1 (by norm_num) (by norm_num)⟩

lemma toRad_sub_neg (x y : ℝ) : toRad (x - y) = -toRad (y - x) := by
  unfold toRad
  ring

lemma haversineKm_comm (lat1 lon1 lat2 lon2 : ℝ) :
    haversineKm lat1 lon1 lat2 lon2 = haversineKm lat2 lon2 lat1 lon1 := by
  simp only [haversineKm]
  rw [toRad_sub_neg lat1 lat2, toRad_sub_neg lon1 lon2]
  rw [neg_div, Real.sin_neg, neg_div, Real.sin_neg]
  ring_nf

lemma haversineKm_self (lat lon : ℝ) : haversineKm lat lon lat lon = 0 := by
  simp only [haversineKm, sub_self]
  have h0 : toRad 0 = 0 := by unfold toRad; ring
  rw [h0]
  simp only [zero_div, Real.sin_zero, ne_eq, OfNat.ofNat_ne_zero, not_false_eq_true,
    zero_pow, mul_zero, add_zero, zero_add, Real.sqrt_zero, sub_zero, Real.sqrt_one]
  have hatan : atan2 0 1 = 0 := by
    unfold atan2
    rw [if_pos one_pos]
    simp [Real.arctan_zero]
  rw [hatan]
  unfold round2R
  norm_num

/-- C7: the haversine distance is symmetric in its two coordinates, and
the distance from any coordinate to itself is 0.00. -/
theorem haversineKm_symm_and_degenerate :
    (∀ lat1 lon1 lat2 lon2 : ℝ,
      haversineKm lat1 lon1 lat2 lon2 = haversineKm lat2 lon2 lat1 lon1) ∧
    (∀ lat lon : ℝ, haversineKm lat lon lat lon = 0) :=
  ⟨haversineKm_comm, haversineKm_self⟩

/-- A record whose city equals the query `"pune"` (up to case). -/
def puneCityRow : PincodeRow :=
  { pincode := "999001"
    city := some "Pune"
    district := some "Somewhere"
    stateName := some "Maharashtra"
    latitude := some 18
    longitude := some 73 }

/-- A record whose district equals the query `"pune"` (up to case). -/
def puneDistrictRow : PincodeRow :=
  { pincode := "110001"
    city := none
    district := some "Pune"
    stateName := some "Maharashtra"
    latitude := some 18
    longitude := some 73 }

lemma textualSearch_sorted (q : String) (db : List PincodeRow) :
    (textualSearch q db).length ≤ 10 ∧
    (textualSearch q db).Sorted (searchLE (lowerStr q)) := by
  constructor
  · exact List.length_take_le 10 _
  · unfold textualSearch
    exact List.Pairwise.sublist (List.take_sublist 10 _)
      (List.sorted_insertionSort (searchLE (lowerStr q)) _)

/-- C8: every textual search result list is ordered by the 5-tier
relevance ranking with ascending pincode within a tier (the `searchLE`
lexicographic order on (relevance, pincode)) and holds at most 10
entries; a city-exact match (tier 1) ranks before a district-exact match
(tier 2), as the concrete Pune example shows: the city match is returned
first although its pincode is larger. -/
theorem textualSearch_ranking :
    (∀ (q : String) (db : List PincodeRow),
      (textualSearch q db).length ≤ 10 ∧
      (textualSearch q db).Sorted (searchLE (lowerStr q))) ∧
    relevance "pune" puneCityRow = 1 ∧
    relevance "pune" puneDistrictRow = 2 ∧
    textualSearch "pune" [puneDistrictRow, puneCityRow] =
      [puneCityRow, puneDistrictRow] := by
  refine ⟨textualSearch_sorted, ?_, ?_, ?_⟩
  · rfl
  · rfl
  · rfl

/-- C3 counterexample: at a straight-line distance of 10 km the
augmentation's adjusted distance is 14 km and its hours estimate is
`round2(14/40) = 0.35`, not the flat-50 value `round2(14/50) = 0.28`. -/
theorem augmentation_hours_not_flat50 :
    (routeEstimationOf 10).hours = 0.35 ∧
    round2 ((routeEstimationOf 10).distance / 50) = 0.28 ∧
    (routeEstimationOf 10).hours ≠ round2 ((routeEstimationOf 10).distance / 50) := by
  norm_num [routeEstimationOf, round2, jsRound]

/-- C3 amended: the augmentation's hours estimate divides the
road-factor-adjusted distance by 40 km/h when that distance is at most
50 km and by 50 km/h above, rounded to 2 decimals. -/
theorem augmentation_hours_speed (sld : ℚ) :
    (routeEstimationOf sld).hours =
      round2 ((routeEstimationOf sld).distance /
        (if (routeEstimationOf sld).distance ≤ 50 then (40:ℚ) else 50)) := by
  simp only [routeEstimationOf]

/-- C4 counterexample: at a straight-line distance of 250 km the adjusted
distance is 325 km; the augmentation labels it `long-outstation`
(its inlined threshold is `> 300`), while `classifyTrip` of the same
distance is `medium-outstation` (`[150, 400)`). -/
theorem augmentation_category_not_classifier :
    (routeEstimationOf 250).distance = 325 ∧
    (routeEstimationOf 250).category = "long-outstation" ∧
    (classifyTrip (routeEstimationOf 250).distance).category = "medium-outstation" ∧
    (routeEstimationOf 250).category ≠
      (classifyTrip (routeEstimationOf 250).distance).category := by
  refine ⟨?_, ?_, ?_, ?_⟩ <;>
    norm_num [routeEstimationOf, classifyTrip, round2, jsRound] <;> decide

/-- C4 amended: the augmentation's category comes from its own inlined
thresholds over the adjusted distance `d`, with strict lower bounds and a
long-outstation threshold of 300 (not `classifyTrip`'s lower-inclusive
bounds with 400): local for `d ≤ 50`, short for `50 < d ≤ 150`, medium
for `150 < d ≤ 300`, long for `300 < d`. -/
theorem augmentation_category_thresholds (sld : ℚ) :
    ((routeEstimationOf sld).category = "local" ↔
      (routeEstimationOf sld).distance ≤ 50) ∧
    ((routeEstimationOf sld).category = "short-outstation" ↔
      50 < (routeEstimationOf sld).distance ∧ (routeEstimationOf sld).distance ≤ 150) ∧
    ((routeEstimationOf sld).category = "medium-outstation" ↔
      150 < (routeEstimationOf sld).distance ∧ (routeEstimationOf sld).distance ≤ 300) ∧
    ((routeEstimationOf sld).category = "long-outstation" ↔
      300 < (routeEstimationOf sld).distance) := by
  simp only [routeEstimationOf]
  generalize (round2 (sld * (if sld > 150 then (1.3:ℚ) else if sld > 50 then 1.35 else 1.4))) = d
  split_ifs with h1 h2 h3 <;>
    refine ⟨?_, ?_, ?_, ?_⟩ <;> simp_all <;> first | linarith | (intro h; linarith)

/-- C2 counterexample: for pins 110001 → 110002 with a zero random draw the
fallback draws distance 15 and hours 0.5, and prices 260 =
`round(80 + 15·12)`; the §4.4 engine (`calculatePrice`) would give 290 =
`round2(50 + 15·12 + round(0.5·120))`, so the fallback does not price via
§4.4's tiering (its base fare is a flat 80 and it adds no time surcharge). -/
theorem fallbackPricing_not_general_tiering :
    (calculateFallbackPricing "110001" "110002" 0).distance = 15 ∧
    (calculateFallbackPricing "110001" "110002" 0).hours = 0.5 ∧
    (calculateFallbackPricing "110001" "110002" 0).approxPrice = 260 ∧
    calculatePrice 15 0.5 = 290 ∧
    (calculateFallbackPricing "110001" "110002" 0).approxPrice ≠
      calculatePrice (calculateFallbackPricing "110001" "110002" 0).distance
        (calculateFallbackPricing "110001" "110002" 0).hours := by
  have hr : |pinRegion "110001" - pinRegion "110002"| = 0 := by decide
  have h1 : (calculateFallbackPricing "110001" "110002" 0).distance = 15 := by
    norm_num [calculateFallbackPricing, hr, round1, jsRound]
  have h2 : (calculateFallbackPricing "110001" "110002" 0).hours = 0.5 := by
    norm_num [calculateFallbackPricing, hr, round2, jsRound]
  have h3 : (calculateFallbackPricing "110001" "110002" 0).approxPrice = 260 := by
    norm_num [calculateFallbackPricing, hr, jsRound]
  have h4 : calculatePrice 15 0.5 = 290 := by
    norm_num [calculatePrice, round2, jsRound]
  refine ⟨h1, h2, h3, h4, ?_⟩
  rw [h1, h2, h3, h4]
  norm_num

/-- C2 amended: whenever the heuristic fallback runs, its `approxPrice`
applies the §4.4 per-km tier rates (12/15/12/10 by the 50/150/400
thresholds) to the drawn distance, but over a flat base fare of 80 with
no time surcharge, rounded to the nearest whole unit. -/
theorem fallbackPricing_formula (fromPin toPin : String) (rand : ℚ) :
    (calculateFallbackPricing fromPin toPin rand).approxPrice =
      (jsRound (80 + drawnDistance fromPin toPin rand *
        (if drawnDistance fromPin toPin rand < 50 then (12:ℚ)
         else if drawnDistance fromPin toPin rand < 150 then 15
         else if drawnDistance fromPin toPin rand < 400 then 12
         else 10)) : ℚ) := by
  simp only [calculateFallbackPricing, drawnDistance]
  split_ifs <;> rfl

/-- C1 counterexample: a transport-level failure of the model-inference
call does not transition to the heuristic fallback — it is caught by the
outer handler and reported as the 500/5001 error, so no result is
returned. -/
theorem transport_failure_is_error :
    handleEstimate "110001" "560001" AIOutcome.transportFailure 0 =
      Outcome.errorResponse 500 5001 ∧
    handleEstimate "110001" "560001" AIOutcome.transportFailure 0 ≠
      Outcome.success (coerceResult "110001" "560001"
        (fallbackRaw (calculateFallbackPricing "110001" "560001" 0))) := by
  exact ⟨rfl, by simp [handleEstimate]⟩

lemma fallback_nonneg (fromPin toPin : String) (rand : ℚ) (hr : 0 ≤ rand) :
    0 ≤ (calculateFallbackPricing fromPin toPin rand).distance ∧
    0 ≤ (calculateFallbackPricing fromPin toPin rand).hours ∧
    0 ≤ (calculateFallbackPricing fromPin toPin rand).approxPrice := by
  simp only [calculateFallbackPricing]
  split_ifs <;> dsimp only <;>
    refine ⟨round1_nonneg (by linarith),
      round2_nonneg (div_nonneg (by linarith) (by norm_num)), ?_⟩ <;>
    exact_mod_cast jsRound_nonneg (by nlinarith)

/-- C1 amended: with valid pins and a fallback draw in range, unparseable
model output transitions to the heuristic fallback and still yields a
success result; a transport-level failure of the model call is reported
as the 500/5001 error (not fallback); and parsed output succeeds or is
reported as the 500/5001 error exactly according to the non-negativity
sanity check. -/
theorem aiEstimate_error_protocol (fromPin toPin : String) (rand : ℚ) (raw : AiRaw)
    (hf : validPin fromPin) (ht : validPin toPin) (hr : 0 ≤ rand) :
    (∃ r, handleEstimate fromPin toPin (AIOutcome.responded none) rand =
      Outcome.success r) ∧
    handleEstimate fromPin toPin AIOutcome.transportFailure rand =
      Outcome.errorResponse 500 5001 ∧
    (sanityFails (coerceResult fromPin toPin raw) = true →
      handleEstimate fromPin toPin (AIOutcome.responded (some raw)) rand =
        Outcome.errorResponse 500 5001) ∧
    (sanityFails (coerceResult fromPin toPin raw) = false →
      handleEstimate fromPin toPin (AIOutcome.responded (some raw)) rand =
        Outcome.success (coerceResult fromPin toPin raw)) := by
  obtain ⟨hd, hh, hp⟩ := fallback_nonneg fromPin toPin rand hr
  refine ⟨⟨coerceResult fromPin toPin
      (fallbackRaw (calculateFallbackPricing fromPin toPin rand)), ?_⟩, rfl, ?_, ?_⟩
  · have hs : sanityFails (coerceResult fromPin toPin
        (fallbackRaw (calculateFallbackPricing fromPin toPin rand))) = false := by
      simp only [sanityFails, coerceResult, fallbackRaw, numOrZero, jsToNumber,
        coerceApproxPrice, ltZero]
      simp [not_lt.mpr hd, not_lt.mpr hh, not_lt.mpr hp]
    simp [handleEstimate, hs]
  · intro h
    simp [handleEstimate, h]
  · intro h
    simp [handleEstimate, h]

/-- A parsed AI result whose distance is negative, used to exercise the
sanity-check arm of the error protocol. -/
def negDistanceRaw : AiRaw :=
  { distance := JSVal.num (-1)
    hours := JSVal.num 1
    isLocal := JSVal.boolVal true
    isOutStation := JSVal.boolVal false
    approxPrice := JSVal.num 100 }

/-- Witness for `aiEstimate_error_protocol` at pins 110001/560001,
`rand = 0` and the negative-distance raw result. -/
theorem aiEstimate_error_protocol_witness :
    validPin "110001" ∧ validPin "560001" ∧ (0:ℚ) ≤ 0 ∧
    ((∃ r, handleEstimate "110001" "560001" (AIOutcome.responded none) 0 =
        Outcome.success r) ∧
     handleEstimate "110001" "560001" AIOutcome.transportFailure 0 =
       Outcome.errorResponse 500 5001 ∧
     (sanityFails (coerceResult "110001" "560001" negDistanceRaw) = true →
       handleEstimate "110001" "560001" (AIOutcome.responded (some negDistanceRaw)) 0 =
         Outcome.errorResponse 500 5001) ∧
     (sanityFails (coerceResult "110001" "560001" negDistanceRaw) = false →
       handleEstimate "110001" "560001" (AIOutcome.responded (some negDistanceRaw)) 0 =
         Outcome.success (coerceResult "110001" "560001" negDistanceRaw))) :=
  ⟨by decide, by decide, by norm_num,
    aiEstimate_error_protocol "110001" "560001" 0 negDistanceRaw
      (by decide) (by decide) (by norm_num)⟩

/-- A parsed AI result whose `approxPrice` is a non-numeric string. -/
def nanPriceRaw : AiRaw :=
  { distance := JSVal.num 10
    hours := JSVal.num 1
    isLocal := JSVal.boolVal false
    isOutStation := JSVal.boolVal true
    approxPrice := JSVal.str "N/A" }

/-- C10 counterexample: a non-numeric string `approxPrice` goes through
`parseFloat` with no `|| 0`, so it is coerced to `NaN` (`none`), not 0 —
yet the sanity check still passes and the request succeeds. -/
theorem approxPrice_nan_not_zero :
    (coerceResult "110001" "560001" nanPriceRaw).approxPrice = none ∧
    (coerceResult "110001" "560001" nanPriceRaw).approxPrice ≠ some 0 ∧
    handleEstimate "110001" "560001" (AIOutcome.responded (some nanPriceRaw)) 0 =
      Outcome.success (coerceResult "110001" "560001" nanPriceRaw) := by
  refine ⟨rfl, by decide, ?_⟩
  have hs : sanityFails (coerceResult "110001" "560001" nanPriceRaw) = false := by
    decide
  simp [handleEstimate, hs]

/-- C10 amended: distance and hours fields that are missing or coerce
to `NaN` are replaced by 0; a missing `approxPrice` is replaced by 0,
but a non-numeric string `approxPrice` is coerced to `NaN` (`none`), not
replaced; and whenever the coerced `approxPrice` does not compare below
zero (`NaN` never does) the zeroed result passes the sanity check and
the request succeeds. -/
theorem aiCoercion_detail (fromPin toPin : String) (rand : ℚ) (raw : AiRaw)
    (hd : jsToNumber raw.distance = none) (hh : jsToNumber raw.hours = none) :
    (coerceResult fromPin toPin raw).distance = 0 ∧
    (coerceResult fromPin toPin raw).hours = 0 ∧
    (raw.approxPrice = JSVal.undefined →
      (coerceResult fromPin toPin raw).approxPrice = some 0) ∧
    (∀ s, raw.approxPrice = JSVal.str s → jsParseFloat s = none →
      (coerceResult fromPin toPin raw).approxPrice = none) ∧
    (ltZero (coerceResult fromPin toPin raw).approxPrice = false →
      handleEstimate fromPin toPin (AIOutcome.responded (some raw)) rand =
        Outcome.success (coerceResult fromPin toPin raw)) := by
  have h0d : (coerceResult fromPin toPin raw).distance = 0 := by
    simp [coerceResult, numOrZero, hd]
  have h0h : (coerceResult fromPin toPin raw).hours = 0 := by
    simp [coerceResult, numOrZero, hh]
  refine ⟨h0d, h0h, ?_, ?_, ?_⟩
  · intro h
    simp [coerceResult, coerceApproxPrice, h, numOrZero, jsToNumber]
  · intro s hs hp
    simp [coerceResult, coerceApproxPrice, hs, hp]
  · intro hlt
    have hs : sanityFails (coerceResult fromPin toPin raw) = false := by
      simp [sanityFails, h0d, h0h, hlt]
    simp [handleEstimate, hs]

/-- A parsed AI result with a missing distance, a non-numeric hours
string, and a non-numeric `approxPrice` string. -/
def allBadRaw : AiRaw :=
  { distance := JSVal.undefined
    hours := JSVal.str "abc"
    isLocal := JSVal.boolVal false
    isOutStation := JSVal.boolVal true
    approxPrice := JSVal.str "N/A" }

/-- Witness for `aiCoercion_detail` at the all-bad raw result: distance
and hours are zeroed, `approxPrice` ends up `NaN`, and the request
succeeds. -/
theorem aiCoercion_detail_witness :
    jsToNumber allBadRaw.distance = none ∧
    jsToNumber allBadRaw.hours = none ∧
    (coerceResult "110001" "560001" allBadRaw).distance = 0 ∧
    (coerceResult "110001" "560001" allBadRaw).hours = 0 ∧
    (coerceResult "110001" "560001" allBadRaw).approxPrice = none ∧
    handleEstimate "110001" "560001" (AIOutcome.responded (some allBadRaw)) 0 =
      Outcome.success (coerceResult "110001" "560001" allBadRaw) := by
  have h := aiCoercion_detail "110001" "560001" 0 allBadRaw (by decide) (by decide)
  have hap : (coerceResult "110001" "560001" allBadRaw).approxPrice = none :=
    h.2.2.2.1 "N/A" rfl (by decide)
  exact ⟨by decide, by decide, h.1, h.2.1, hap,
    h.2.2.2.2 (by rw [hap]; rfl)⟩

/-- C9: a stored latitude or longitude equal to 0 is falsy in the JS
truthiness checks, so the code-based route estimate rejects the request
with the `has no coordinates in database` error for that side (4043 for
FROM, 4044 for TO), and the ranked-search augmentation maps the zero
coordinate to `null` and attaches no route estimation. -/
theorem zero_coordinate_treated_absent (row other : PincodeRow)
    (fromCoords : Option (ℚ × ℚ)) (sld : ℚ)
    (h : row.latitude = some 0 ∨ row.longitude = some 0) :
    resolvePincodeRoute (some row) (some other) = PinRouteOutcome.noCoordsFrom 4043 ∧
    (truthyCol other.latitude = true → truthyCol other.longitude = true →
      resolvePincodeRoute (some other) (some row) = PinRouteOutcome.noCoordsTo 4044) ∧
    (formatRow fromCoords row sld).routeEstimation = none ∧
    (row.latitude = some 0 → (formatRow fromCoords row sld).latitude = none) ∧
    (row.longitude = some 0 → (formatRow fromCoords row sld).longitude = none) := by
  have htr : truthyCol (some (0:ℚ)) = false := by decide
  rcases h with h | h
  · refine ⟨?_, ?_, ?_, ?_, ?_⟩
    · simp [resolvePincodeRoute, h, htr]
    · intro h1 h2
      simp [resolvePincodeRoute, h, htr, h1, h2]
    · simp [formatRow, h, htr, truthyCol]
    · intro _
      simp [formatRow, h, htr]
    · intro hlon
      simp [formatRow, hlon, htr]
  · refine ⟨?_, ?_, ?_, ?_, ?_⟩
    · simp [resolvePincodeRoute, h, htr]
    · intro h1 h2
      simp [resolvePincodeRoute, h, htr, h1, h2]
    · simp [formatRow, h, htr, truthyCol]
    · intro hlat
      simp [formatRow, hlat, htr]
    · intro _
      simp [formatRow, h, htr]

/-- A pincode row whose stored latitude is exactly 0. -/
def zeroLatRow : PincodeRow :=
  { pincode := "400001"
    city := some "Mumbai"
    district := some "Mumbai"
    stateName := some "Maharashtra"
    latitude := some 0
    longitude := some 72 }

/-- A pincode row with ordinary non-zero coordinates. -/
def normalRow : PincodeRow :=
  { pincode := "110001"
    city := some "New Delhi"
    district := some "Central Delhi"
    stateName := some "Delhi"
    latitude := some 28
    longitude := some 77 }

/-- Witness for `zero_coordinate_treated_absent` at the zero-latitude row. -/
theorem zero_coordinate_treated_absent_witness :
    (zeroLatRow.latitude = some 0 ∨ zeroLatRow.longitude = some 0) ∧
    (resolvePincodeRoute (some zeroLatRow) (some normalRow) =
        PinRouteOutcome.noCoordsFrom 4043 ∧
     resolvePincodeRoute (some normalRow) (some zeroLatRow) =
        PinRouteOutcome.noCoordsTo 4044 ∧
     (formatRow (some (28, 77)) zeroLatRow 10).routeEstimation = none ∧
     (formatRow (some (28, 77)) zeroLatRow 10).latitude = none) := by
  have h := zero_coordinate_treated_absent zeroLatRow normalRow (some (28, 77)) 10
    (Or.inl rfl)
  exact ⟨Or.inl rfl, h.1, h.2.1 (by decide) (by decide), h.2.2.1,
    h.2.2.2.1 rfl⟩

end RoutePricing
